import Mathlib

/-
Shallow embedding of the user CRUD service in src/src/main.rs.

The service exposes five actix-web handlers (create_user, get_user,
get_all_user, update_user, delete_user) over a MongoDB collection of
User documents. We embed:

* `ObjectId` and `ObjectId.parse_str` (the identifier codec);
* `User` (the serde struct) and its JSON serialization, including the
  `skip_serializing_if = Option.is_none` attribute and the `_id` rename;
* the store-level document representation `Doc`, which, unlike `User`,
  distinguishes an absent field from an explicit BSON null;
* the collection operations the handlers invoke (find_one, insert_one,
  update_one with a `$set` document, delete_one, and the find-all
  cursor), modelled on a list of documents, with fault flags injecting
  the driver/network error case of each call site;
* the five handlers themselves, returning a `Response` (HTTP outcome or
  panic) together with the resulting store state and the trace of store
  operations they performed.
-/

namespace RestApi

/-- A hexadecimal digit, as accepted by ObjectId parsing. -/
def hexDigit (c : Char) : Bool :=
  c.isDigit || (decide ('a'.toNat ≤ c.toNat) && decide (c.toNat ≤ 'f'.toNat)) ||
    (decide ('A'.toNat ≤ c.toNat) && decide (c.toNat ≤ 'F'.toNat))

/-- A MongoDB ObjectId, identified by its 24-character hex representation. -/
structure ObjectId where
  hex : String
deriving DecidableEq, Repr

/-- `bson::oid::ObjectId::parse_str`: succeeds exactly on 24-character hex strings. -/
def ObjectId.parse_str (s : String) : Option ObjectId :=
  if s.length = 24 && s.toList.all hexDigit then some ⟨s⟩ else none

/-- The `User` serde struct of main.rs: all three fields optional. -/
structure User where
  id : Option ObjectId
  name : Option String
  email : Option String
deriving DecidableEq, Repr

/-- A BSON value as stored in a document field by this program: either an
explicit null or a string. -/
inductive BVal where
  | null
  | str (s : String)
deriving DecidableEq, Repr

/-- A stored document of the "users" collection. A field holding `none` is
absent from the document; `some BVal.null` is an explicit null field. -/
structure Doc where
  id : ObjectId
  name : Option BVal
  email : Option BVal
deriving DecidableEq, Repr

/-- BSON encoding of an `Option String` inside the `doc!` `$set` macro:
`None` becomes an explicit BSON null, `Some s` a BSON string. -/
def bvalOf : Option String → BVal
  | none => BVal.null
  | some s => BVal.str s

/-- BSON decoding of a stored field into an `Option String` field of `User`:
null decodes to `None`, a string to `Some`. -/
def bvalToStr : BVal → Option String
  | BVal.null => none
  | BVal.str s => some s

/-- serde deserialization of a stored document into a `User`: an absent field
and an explicit null field both decode to `None`. -/
def docToUser (d : Doc) : User :=
  { id := some d.id, name := d.name.bind bvalToStr, email := d.email.bind bvalToStr }

/-- serde serialization of a `User` with id `oid` into a stored document on
insert: `skip_serializing_if` omits absent fields entirely. -/
def userDoc (oid : ObjectId) (nm em : Option String) : Doc :=
  { id := oid, name := nm.map BVal.str, email := em.map BVal.str }

/-- The "users" collection: the sequence of stored documents. -/
structure Db where
  docs : List Doc
deriving DecidableEq, Repr

/-- `collection.find_one(doc! \x7b "_id": oid \x7d, ..)`: the first stored
document with the given id, deserialized into a `User`. -/
def Db.findOne (db : Db) (oid : ObjectId) : Option User :=
  (db.docs.find? (fun d => d.id = oid)).map docToUser

/-- `collection.insert_one(&new_user, None)`: appends the serialized document,
or fails server-side on a duplicate id (the unique `_id` index). -/
def Db.insertOne (db : Db) (oid : ObjectId) (nm em : Option String) : Except Unit Db :=
  if db.docs.any (fun d => d.id = oid) then Except.error ()
  else Except.ok ⟨db.docs ++ [userDoc oid nm em]⟩

/-- The effect of `$set \x7b "name": nm, "email": em \x7d` on a matched
document: both fields are written, an absent merged value as explicit null. -/
def setFields (d : Doc) (nm em : Option String) : Doc :=
  { d with name := some (bvalOf nm), email := some (bvalOf em) }

/-- `update_one` over the document list: rewrites the first document with the
given id and reports `modified_count` (0 when the `$set` changes nothing). -/
def updateFirst (docs : List Doc) (oid : ObjectId) (nm em : Option String) :
    List Doc × Nat :=
  match docs with
  | [] => ([], 0)
  | d :: rest =>
    if d.id = oid then
      (setFields d nm em :: rest, if setFields d nm em = d then 0 else 1)
    else
      (d :: (updateFirst rest oid nm em).1, (updateFirst rest oid nm em).2)

/-- `collection.update_one` with filter `\x7b "_id": oid \x7d` (upsert false):
the new collection state and the reported `modified_count`. -/
def Db.updateOne (db : Db) (oid : ObjectId) (nm em : Option String) : Db × Nat :=
  (⟨(updateFirst db.docs oid nm em).1⟩, (updateFirst db.docs oid nm em).2)

/-- `delete_one` over the document list: removes the first document with the
given id and reports `deleted_count`. -/
def deleteFirst (docs : List Doc) (oid : ObjectId) : List Doc × Nat :=
  match docs with
  | [] => ([], 0)
  | d :: rest =>
    if d.id = oid then (rest, 1)
    else
      (d :: (deleteFirst rest oid).1, (deleteFirst rest oid).2)

/-- `collection.delete_one` with filter `\x7b "_id": oid \x7d`. -/
def Db.deleteOne (db : Db) (oid : ObjectId) : Db × Nat :=
  (⟨(deleteFirst db.docs oid).1⟩, (deleteFirst db.docs oid).2)

/-- `Option::or` as used in the merge: the client value if present, else the
stored value. -/
def optOr (a b : Option String) : Option String :=
  match a with
  | some v => some v
  | none => b

/-- The outcome of a handler: an HTTP response (200 with a user body, 200 with
a list body, 400, 404, 500 — the non-200 ones all with empty body), or a panic
escaping the handler. -/
inductive Response where
  | okUser (u : User)
  | okList (us : List User)
  | badRequest
  | notFound
  | serverError
  | panicked (msg : String)
deriving DecidableEq, Repr

/-- A store operation performed by a handler, for the operation trace. -/
inductive StoreOp where
  | findOne (oid : ObjectId)
  | findAll
  | insertOne (u : User)
  | updateOne (oid : ObjectId) (nm em : Option String)
  | deleteOne (oid : ObjectId)
deriving DecidableEq, Repr

/-- `create_user`: builds a fresh `User` from a server-generated id
(`ObjectId::new()`, passed in as `newId`) and the client body's name and
email (any client-sent id is never read), inserts it, and returns it on
success; 500 on any insert failure. `insertFault` injects a driver error. -/
def create_user (db : Db) (newId : ObjectId) (user : User) (insertFault : Bool) :
    Response × Db × List StoreOp :=
  let new_user : User := { id := some newId, name := user.name, email := user.email }
  let result : Except Unit Db :=
    if insertFault then Except.error () else db.insertOne newId user.name user.email
  match result with
  | Except.ok db' => (Response.okUser new_user, db', [StoreOp.insertOne new_user])
  | Except.error _ => (Response.serverError, db, [StoreOp.insertOne new_user])

/-- `get_user`: parses the path id (400 on failure, no store access), then
finds the user (200 with body / 404 / 500). `findFault` injects a driver
error on the find. -/
def get_user (db : Db) (info : String) (findFault : Bool) :
    Response × List StoreOp :=
  match ObjectId.parse_str info with
  | none => (Response.badRequest, [])
  | some user_id =>
    let findRes : Except Unit (Option User) :=
      if findFault then Except.error () else Except.ok (db.findOne user_id)
    match findRes with
    | Except.error _ => (Response.serverError, [StoreOp.findOne user_id])
    | Except.ok (some user) => (Response.okUser user, [StoreOp.findOne user_id])
    | Except.ok none => (Response.notFound, [StoreOp.findOne user_id])

/-- `update_user_in_db`: issues the `$set` update (upsert false) and reports
whether `modified_count > 0`; a driver error (injected by `fault`) is logged
and collapsed to `false`. Also returns the resulting store state. -/
def update_user_in_db (db : Db) (user_id : ObjectId) (updated_user : User)
    (fault : Bool) : Bool × Db :=
  if fault then (false, db)
  else
    (decide (0 < (db.updateOne user_id updated_user.name updated_user.email).2),
     (db.updateOne user_id updated_user.name updated_user.email).1)

/-- `update_user`: parses the path id (400 on failure, no store access),
fetches the existing record (404 / 500), merges field-by-field with
`Option::or`, writes the merge back, and returns 200 with the merged record
exactly when the store reported a modified document, else 500. -/
def update_user (db : Db) (info : String) (user : User)
    (findFault updFault : Bool) : Response × Db × List StoreOp :=
  match ObjectId.parse_str info with
  | none => (Response.badRequest, db, [])
  | some user_id =>
    let findRes : Except Unit (Option User) :=
      if findFault then Except.error () else Except.ok (db.findOne user_id)
    match findRes with
    | Except.error _ => (Response.serverError, db, [StoreOp.findOne user_id])
    | Except.ok none => (Response.notFound, db, [StoreOp.findOne user_id])
    | Except.ok (some existing_user) =>
      let updated_user : User :=
        { id := some user_id
          name := optOr user.name existing_user.name
          email := optOr user.email existing_user.email }
      let ops := [StoreOp.findOne user_id,
                  StoreOp.updateOne user_id updated_user.name updated_user.email]
      if (update_user_in_db db user_id updated_user updFault).1 then
        (Response.okUser updated_user, (update_user_in_db db user_id updated_user updFault).2, ops)
      else
        (Response.serverError, (update_user_in_db db user_id updated_user updFault).2, ops)

/-- `delete_user`: parses the path id (400 on failure, no store access),
fetches the record so it can be echoed back (404 / 500), then deletes by id:
200 with the pre-delete body when `deleted_count == 1`, 404 when 0, 500 on a
delete-call failure. `findFault` and `delFault` inject driver errors. The two
store calls are separate awaits, so the collection state each one sees may
differ when a concurrent request runs in between: `db` is the state seen by
the fetch and `dbd` the state seen by the delete; a race-free execution has
`dbd = db`. -/
def delete_user (db dbd : Db) (info : String) (findFault delFault : Bool) :
    Response × Db × List StoreOp :=
  match ObjectId.parse_str info with
  | none => (Response.badRequest, dbd, [])
  | some user_id =>
    let findRes : Except Unit (Option User) :=
      if findFault then Except.error () else Except.ok (db.findOne user_id)
    match findRes with
    | Except.error _ => (Response.serverError, dbd, [StoreOp.findOne user_id])
    | Except.ok none => (Response.notFound, dbd, [StoreOp.findOne user_id])
    | Except.ok (some user) =>
      let ops := [StoreOp.findOne user_id, StoreOp.deleteOne user_id]
      if delFault then (Response.serverError, dbd, ops)
      else
        if (dbd.deleteOne user_id).2 = 1 then
          (Response.okUser user, (dbd.deleteOne user_id).1, ops)
        else
          (Response.notFound, (dbd.deleteOne user_id).1, ops)

/-- The while-let loop of `get_all_user`: pushes each `Ok` item of the cursor
in order and aborts with an error at the first failed item read. -/
def collectUsers : List (Except Unit User) → Except Unit (List User)
  | [] => Except.ok []
  | Except.error e :: _ => Except.error e
  | Except.ok u :: rest => (collectUsers rest).map (fun us => u :: us)

/-- The cursor stream produced by a fault-free `find(doc! \x7b\x7d)`: every
stored document in order, deserialized. -/
def okStream (db : Db) : List (Except Unit User) :=
  db.docs.map (fun d => Except.ok (docToUser d))

/-- `get_all_user`: the initial `find` is unwrapped with
`.expect("Failed to execute find query")`, so a failure there panics
(`initialFault`); otherwise the cursor items (`stream`) are materialized,
any item error yields 500, an empty result 404, else 200 with the list. -/
def get_all_user (initialFault : Bool) (stream : List (Except Unit User)) :
    Response :=
  if initialFault then Response.panicked "Failed to execute find query"
  else
    match collectUsers stream with
    | Except.error _ => Response.serverError
    | Except.ok users =>
      if users.isEmpty then Response.notFound
      else Response.okList users

/-- A JSON value, as produced by `HttpResponse::Ok().json(..)`. -/
inductive Json where
  | null
  | str (s : String)
  | obj (fields : List (String × Json))
  | arr (items : List Json)

/-- serde_json serialization of an ObjectId (the extended-JSON object form). -/
def idJson (oid : ObjectId) : Json :=
  Json.obj [("$oid", Json.str oid.hex)]

/-- serde_json serialization of `User`: `id` is renamed `_id`, and every
field carrying `None` is skipped entirely (`skip_serializing_if`). -/
def serializeUser (u : User) : Json :=
  Json.obj
    ((match u.id with
      | some oid => [("_id", idJson oid)]
      | none => []) ++
     (match u.name with
      | some s => [("name", Json.str s)]
      | none => []) ++
     (match u.email with
      | some s => [("email", Json.str s)]
      | none => []))

/-- The body of a response: success responses carry serialized JSON, every
error response is finished with an empty body. -/
def responseBody : Response → Option Json
  | Response.okUser u => some (serializeUser u)
  | Response.okList us => some (Json.arr (us.map serializeUser))
  | _ => none

/-- The keys of a JSON object. -/
def objKeys : Json → List String
  | Json.obj fields => fields.map Prod.fst
  | _ => []

/-- Whether a JSON value is the null literal. -/
def isNull : Json → Bool
  | Json.null => true
  | _ => false

/-- Whether a JSON object carries an explicit null value for some key. -/
def hasNullValue : Json → Bool
  | Json.obj fields => fields.any (fun kv => isNull kv.2)
  | _ => false

/-- All document ids in the collection are distinct: the invariant maintained
by the unique `_id` index. -/
def Db.wf (db : Db) : Prop :=
  (db.docs.map Doc.id).Nodup

/-! Concrete fixtures used to instantiate the theorems below. -/

/-- A valid 24-character hex ObjectId. -/
def oid0 : ObjectId := ⟨"0123456789abcdef01234567"⟩

/-- Its string form, as it appears in a request path. -/
def s0 : String := "0123456789abcdef01234567"

/-- A second, distinct valid ObjectId. -/
def oidFresh : ObjectId := ⟨"aaaaaaaaaaaaaaaaaaaaaaaa"⟩

/-- A stored document with a name and no email field. -/
def annDoc : Doc := { id := oid0, name := some (BVal.str "Ann"), email := none }

/-- A stored document with a name and an explicit null email, as left behind
by a previous update. -/
def annNullDoc : Doc := { id := oid0, name := some (BVal.str "Ann"), email := some BVal.null }

/-- A one-document collection. -/
def annDb : Db := ⟨[annDoc]⟩

/-- A one-document collection whose document is already in post-update form. -/
def annNullDb : Db := ⟨[annNullDoc]⟩

/-- The user `annDoc` deserializes to. -/
def annUser : User := { id := some oid0, name := some "Ann", email := none }

/-- A request body with no fields supplied. -/
def emptyBody : User := { id := none, name := none, email := none }

/-- A request body supplying only an email. -/
def emailBody : User := { id := none, name := none, email := some "ann@x.com" }

/-- A request body supplying only a name. -/
def bobBody : User := { id := none, name := some "Bob", email := none }

/-! Helper lemmas about the store model. -/

theorem collectUsers_error (stream : List (Except Unit User))
    (h : Except.error () ∈ stream) : collectUsers stream = Except.error () := by
  induction stream with
  | nil => simp at h
  | cons x rest ih =>
    cases x with
    | error e =>
      cases e
      rfl
    | ok u =>
      have hr : Except.error () ∈ rest := by
        rcases List.mem_cons.mp h with h1 | h2
        · exact absurd h1 (by simp)
        · exact h2
      simp [collectUsers, ih hr, Except.map]

theorem collectUsers_okStream (docs : List Doc) :
    collectUsers (docs.map (fun d => Except.ok (docToUser d)))
      = Except.ok (docs.map docToUser) := by
  induction docs with
  | nil => rfl
  | cons d rest ih => simp [collectUsers, ih, Except.map]

theorem find?_of_not_any (docs : List Doc) (oid : ObjectId)
    (h : docs.any (fun d => d.id = oid) = false) :
    docs.find? (fun d => d.id = oid) = none := by
  rw [List.find?_eq_none]
  intro x hx
  simp only [List.any_eq_false] at h
  exact h x hx

theorem findOne_insertOne (db db2 : Db) (oid : ObjectId) (nm em : Option String)
    (h : db.insertOne oid nm em = Except.ok db2) :
    db2.findOne oid = some (docToUser (userDoc oid nm em)) := by
  unfold Db.insertOne at h
  split at h
  · exact absurd h (by simp)
  · rename_i hany
    have hdb2 : db2 = ⟨db.docs ++ [userDoc oid nm em]⟩ := by
      cases h
      rfl
    subst hdb2
    unfold Db.findOne
    rw [List.find?_append, find?_of_not_any db.docs oid (by simpa using hany)]
    simp [userDoc]

theorem find?_deleteFirst (docs : List Doc) (oid : ObjectId)
    (h : (docs.map Doc.id).Nodup) :
    (deleteFirst docs oid).1.find? (fun d => d.id = oid) = none := by
  induction docs with
  | nil => rfl
  | cons d rest ih =>
    rw [List.map_cons, List.nodup_cons] at h
    by_cases hid : d.id = oid
    · simp only [deleteFirst, if_pos hid]
      rw [List.find?_eq_none]
      intro x hx hpx
      simp only [decide_eq_true_eq] at hpx
      exact h.1 (by rw [hid, ← hpx]; exact List.mem_map_of_mem Doc.id hx)
    · simp only [deleteFirst, if_neg hid]
      rw [List.find?_cons_of_neg _ (by simp [hid])]
      exact ih h.2

theorem deleteFirst_count (docs : List Doc) (oid : ObjectId) (d : Doc)
    (h : docs.find? (fun x => x.id = oid) = some d) :
    (deleteFirst docs oid).2 = 1 := by
  induction docs with
  | nil => simp at h
  | cons x rest ih =>
    by_cases hid : x.id = oid
    · simp [deleteFirst, hid]
    · rw [List.find?_cons_of_neg _ (by simp [hid])] at h
      simp only [deleteFirst, if_neg hid]
      exact ih h

theorem updateFirst_find? (docs : List Doc) (oid : ObjectId) (nm em : Option String)
    (d : Doc) (h : docs.find? (fun x => x.id = oid) = some d) :
    (updateFirst docs oid nm em).1.find? (fun x => x.id = oid)
      = some (setFields d nm em) := by
  induction docs with
  | nil => simp at h
  | cons x rest ih =>
    by_cases hid : x.id = oid
    · rw [List.find?_cons_of_pos _ (by simp [hid])] at h
      cases h
      simp only [updateFirst, if_pos hid]
      rw [List.find?_cons_of_pos _ (by simp [setFields, hid])]
    · rw [List.find?_cons_of_neg _ (by simp [hid])] at h
      simp only [updateFirst, if_neg hid]
      rw [List.find?_cons_of_neg _ (by simp [hid])]
      exact ih h

/-! The claims. -/

/-- C1 (amended): every driver/network/server-side store error is resolved
locally into a 500 response with empty body — the insert failure in create,
the find failure in get-one, the find and update failures in update, the find
and delete failures in delete, and a per-item cursor read failure in get-all —
with one exception: the get-all handler's initial collection query failure is
not surfaced as a 500 response but panics with "Failed to execute find query",
escaping the handler boundary. -/
theorem c1_store_errors (db : Db) (newId : ObjectId) (body : User) (info : String)
    (uid : ObjectId) (ex : User) (stream : List (Except Unit User))
    (hp : ObjectId.parse_str info = some uid)
    (hf : db.findOne uid = some ex)
    (hs : Except.error () ∈ stream) :
    (create_user db newId body true).1 = Response.serverError ∧
    (get_user db info true).1 = Response.serverError ∧
    (update_user db info body true false).1 = Response.serverError ∧
    (update_user db info body false true).1 = Response.serverError ∧
    (delete_user db db info true false).1 = Response.serverError ∧
    (delete_user db db info false true).1 = Response.serverError ∧
    responseBody Response.serverError = none ∧
    get_all_user false stream = Response.serverError ∧
    get_all_user true stream = Response.panicked "Failed to execute find query" ∧
    (∀ msg, Response.panicked msg ≠ Response.serverError) := by
  refine ⟨?_, ?_, ?_, ?_, ?_, ?_, rfl, ?_, ?_, ?_⟩
  · simp [create_user]
  · simp [get_user, hp]
  · simp [update_user, hp]
  · simp [update_user, hp, hf, update_user_in_db]
  · simp [delete_user, hp]
  · simp [delete_user, hp, hf]
  · simp [get_all_user, collectUsers_error stream hs]
  · simp [get_all_user]
  · intro msg
    simp

/-- C1 witness: the amended statement instantiated on a one-document store. -/
theorem c1_store_errors_witness :
    (create_user annDb oidFresh bobBody true).1 = Response.serverError ∧
    (get_user annDb s0 true).1 = Response.serverError ∧
    (update_user annDb s0 bobBody true false).1 = Response.serverError ∧
    (update_user annDb s0 bobBody false true).1 = Response.serverError ∧
    (delete_user annDb annDb s0 true false).1 = Response.serverError ∧
    (delete_user annDb annDb s0 false true).1 = Response.serverError ∧
    responseBody Response.serverError = none ∧
    get_all_user false [Except.error ()] = Response.serverError ∧
    get_all_user true [Except.error ()]
      = Response.panicked "Failed to execute find query" ∧
    (∀ msg, Response.panicked msg ≠ Response.serverError) :=
  c1_store_errors annDb oidFresh bobBody s0 oid0 annUser [Except.error ()]
    (by decide) (by decide) (by simp)

/-- C1 counterexample: as literally stated the claim is false — when the
initial collection query of the get-all handler fails, the handler panics
instead of returning a server-error response. -/
theorem c1_counterexample :
    get_all_user true [] = Response.panicked "Failed to execute find query" ∧
    get_all_user true [] ≠ Response.serverError := by
  constructor
  · rfl
  · decide

/-- C5: an identifier string that fails ObjectId parsing makes each of
get-one, update and delete return 400 immediately, with the store untouched
(no store operation in the trace, state unchanged) — for any injected fault
flags, since no store call is ever reached. -/
theorem c5_bad_id (db : Db) (body : User) (s : String) (f1 f2 : Bool)
    (h : ObjectId.parse_str s = none) :
    get_user db s f1 = (Response.badRequest, []) ∧
    update_user db s body f1 f2 = (Response.badRequest, db, []) ∧
    delete_user db db s f1 f2 = (Response.badRequest, db, []) := by
  refine ⟨?_, ?_, ?_⟩ <;> simp [get_user, update_user, delete_user, h]

/-- C5 witness: the statement instantiated at the unparsable id "oops". -/
theorem c5_bad_id_witness :
    get_user annDb "oops" false = (Response.badRequest, []) ∧
    update_user annDb "oops" bobBody false false = (Response.badRequest, annDb, []) ∧
    delete_user annDb annDb "oops" false false = (Response.badRequest, annDb, []) :=
  c5_bad_id annDb bobBody "oops" false false (by decide)

/-- C2: for an update request with a well-formed identifier whose record
exists, the merged record is computed field-by-field with `Option::or`: each
of name and email is the client-supplied value when present and otherwise the
stored value (an omitted field is never erased), the identifier of the merged
record is the path identifier, the write targets exactly this merged record,
and a 200 response carries exactly this merged record. -/
theorem c2_update_merge (db : Db) (info : String) (body : User) (uid : ObjectId)
    (ex : User) (updFault : Bool)
    (hp : ObjectId.parse_str info = some uid)
    (hf : db.findOne uid = some ex) :
    (∀ v, body.name = some v → optOr body.name ex.name = some v) ∧
    (body.name = none → optOr body.name ex.name = ex.name) ∧
    (∀ v, body.email = some v → optOr body.email ex.email = some v) ∧
    (body.email = none → optOr body.email ex.email = ex.email) ∧
    (update_user db info body false updFault).2.2 =
      [StoreOp.findOne uid,
       StoreOp.updateOne uid (optOr body.name ex.name) (optOr body.email ex.email)] ∧
    (∀ u, (update_user db info body false updFault).1 = Response.okUser u →
      u = { id := some uid
            name := optOr body.name ex.name
            email := optOr body.email ex.email }) := by
  refine ⟨?_, ?_, ?_, ?_, ?_, ?_⟩
  · intro v hv
    simp [optOr, hv]
  · intro hv
    simp [optOr, hv]
  · intro v hv
    simp [optOr, hv]
  · intro hv
    simp [optOr, hv]
  · cases updFault with
    | true => simp [update_user, hp, hf, update_user_in_db]
    | false =>
      by_cases hm : 0 < (db.updateOne uid (optOr body.name ex.name)
          (optOr body.email ex.email)).2
      · simp [update_user, hp, hf, update_user_in_db, hm]
      · simp [update_user, hp, hf, update_user_in_db, hm]
  · intro u hu
    cases updFault with
    | true => simp [update_user, hp, hf, update_user_in_db] at hu
    | false =>
      by_cases hm : 0 < (db.updateOne uid (optOr body.name ex.name)
          (optOr body.email ex.email)).2
      · simp [update_user, hp, hf, update_user_in_db, hm] at hu
        exact hu.symm
      · simp [update_user, hp, hf, update_user_in_db, hm] at hu

/-- C2 witness: updating only the email of a record that has a name keeps the
name and the identifier. -/
theorem c2_update_merge_witness :
    (∀ v, emailBody.name = some v → optOr emailBody.name annUser.name = some v) ∧
    (emailBody.name = none → optOr emailBody.name annUser.name = annUser.name) ∧
    (∀ v, emailBody.email = some v → optOr emailBody.email annUser.email = some v) ∧
    (emailBody.email = none → optOr emailBody.email annUser.email = annUser.email) ∧
    (update_user annDb s0 emailBody false false).2.2 =
      [StoreOp.findOne oid0,
       StoreOp.updateOne oid0 (optOr emailBody.name annUser.name)
         (optOr emailBody.email annUser.email)] ∧
    (∀ u, (update_user annDb s0 emailBody false false).1 = Response.okUser u →
      u = { id := some oid0
            name := optOr emailBody.name annUser.name
            email := optOr emailBody.email annUser.email }) :=
  c2_update_merge annDb s0 emailBody oid0 annUser false (by decide) (by decide)

/-- C3: with a well-formed identifier and an existing record, the update
handler returns 200 with the merged record exactly when the store reports at
least one modified document; when the store reports zero modified documents
(including a no-op merge) or the update call fails, it returns 500. -/
theorem c3_update_status (db : Db) (info : String) (body : User) (uid : ObjectId)
    (ex : User)
    (hp : ObjectId.parse_str info = some uid)
    (hf : db.findOne uid = some ex) :
    ((update_user db info body false false).1
        = Response.okUser { id := some uid
                            name := optOr body.name ex.name
                            email := optOr body.email ex.email }
      ↔ 0 < (db.updateOne uid (optOr body.name ex.name) (optOr body.email ex.email)).2) ∧
    ((db.updateOne uid (optOr body.name ex.name) (optOr body.email ex.email)).2 = 0 →
      (update_user db info body false false).1 = Response.serverError) ∧
    (update_user db info body false true).1 = Response.serverError := by
  refine ⟨?_, ?_, ?_⟩
  · by_cases hm : 0 < (db.updateOne uid (optOr body.name ex.name)
        (optOr body.email ex.email)).2
    · simp [update_user, hp, hf, update_user_in_db, hm]
    · simp [update_user, hp, hf, update_user_in_db, hm]
  · intro hm
    simp [update_user, hp, hf, update_user_in_db, hm]
  · simp [update_user, hp, hf, update_user_in_db]

/-- C3 witness: a no-op update — empty body against a record already stored
in post-update form — modifies zero documents and is reported as a 500. -/
theorem c3_update_status_witness :
    ((update_user annNullDb s0 emptyBody false false).1
        = Response.okUser { id := some oid0
                            name := optOr emptyBody.name annUser.name
                            email := optOr emptyBody.email annUser.email }
      ↔ 0 < (annNullDb.updateOne oid0 (optOr emptyBody.name annUser.name)
               (optOr emptyBody.email annUser.email)).2) ∧
    ((annNullDb.updateOne oid0 (optOr emptyBody.name annUser.name)
        (optOr emptyBody.email annUser.email)).2 = 0 →
      (update_user annNullDb s0 emptyBody false false).1 = Response.serverError) ∧
    (update_user annNullDb s0 emptyBody false true).1 = Response.serverError :=
  c3_update_status annNullDb s0 emptyBody oid0 annUser (by decide) (by decide)

/-- C4: the get-all handler materializes the whole cursor before responding:
a read failure on any item yields 500, an empty materialized set yields 404
rather than an empty 200 array, and otherwise it returns 200 with every
stored record in order. -/
theorem c4_get_all (db : Db) (stream : List (Except Unit User)) :
    (Except.error () ∈ stream → get_all_user false stream = Response.serverError) ∧
    (db.docs = [] → get_all_user false (okStream db) = Response.notFound) ∧
    (db.docs ≠ [] → get_all_user false (okStream db)
        = Response.okList (db.docs.map docToUser)) := by
  refine ⟨?_, ?_, ?_⟩
  · intro hs
    simp [get_all_user, collectUsers_error stream hs]
  · intro h
    simp [get_all_user, okStream, h, collectUsers]
  · intro h
    obtain ⟨docs⟩ := db
    simp only at h
    cases docs with
    | nil => exact absurd rfl h
    | cons d rest =>
      have hc : collectUsers
            (Except.ok (docToUser d) :: List.map (fun x => Except.ok (docToUser x)) rest)
          = Except.ok (docToUser d :: List.map docToUser rest) := by
        simpa using collectUsers_okStream (d :: rest)
      simp [get_all_user, okStream, hc]

/-- C4 witness: a failing item read yields 500, the empty collection yields
404, and the one-document collection yields 200 with its single record. -/
theorem c4_get_all_witness :
    get_all_user false [Except.error ()] = Response.serverError ∧
    get_all_user false (okStream ⟨[]⟩) = Response.notFound ∧
    get_all_user false (okStream annDb) = Response.okList (annDb.docs.map docToUser) :=
  ⟨(c4_get_all ⟨[]⟩ [Except.error ()]).1 (by simp),
   (c4_get_all ⟨[]⟩ [Except.error ()]).2.1 rfl,
   (c4_get_all annDb [Except.error ()]).2.2 (by decide)⟩

/-- C6: the create handler builds the new record from the server-generated
identifier and the client body's name and email only — a client-supplied id
is ignored —, returns that full record with 200 on a successful insert, and
returns 500 with empty body and an unchanged store on any insert failure. -/
theorem c6_create (db : Db) (newId : ObjectId) (user : User) (fault : Bool) :
    (∀ cid : Option ObjectId,
      create_user db newId { id := cid, name := user.name, email := user.email } fault
        = create_user db newId user fault) ∧
    (∀ db2 : Db, fault = false → db.insertOne newId user.name user.email = Except.ok db2 →
      create_user db newId user fault
        = (Response.okUser { id := some newId, name := user.name, email := user.email },
           db2,
           [StoreOp.insertOne { id := some newId, name := user.name, email := user.email }])) ∧
    ((fault = true ∨ db.insertOne newId user.name user.email = Except.error ()) →
      (create_user db newId user fault).1 = Response.serverError ∧
      responseBody (create_user db newId user fault).1 = none ∧
      (create_user db newId user fault).2.1 = db) := by
  refine ⟨?_, ?_, ?_⟩
  · intro cid
    simp [create_user]
  · intro db2 hfault hins
    subst hfault
    simp [create_user, hins]
  · rintro (h | h)
    · subst h
      simp [create_user, responseBody]
    · cases fault <;> simp [create_user, h, responseBody]

/-- C6 witness: creating from a body that carries a client id gives the same
result as without it, and the insert of "Bob" under the fresh id succeeds and
returns the fully constructed record. -/
theorem c6_create_witness :
    create_user annDb oidFresh
        { id := some oid0, name := bobBody.name, email := bobBody.email } false
      = create_user annDb oidFresh bobBody false ∧
    create_user annDb oidFresh bobBody false
      = (Response.okUser
           { id := some oidFresh, name := bobBody.name, email := bobBody.email },
         ⟨[annDoc, userDoc oidFresh bobBody.name bobBody.email]⟩,
         [StoreOp.insertOne
            { id := some oidFresh, name := bobBody.name, email := bobBody.email }]) ∧
    (create_user annDb oidFresh bobBody true).1 = Response.serverError :=
  ⟨(c6_create annDb oidFresh bobBody false).1 (some oid0),
   (c6_create annDb oidFresh bobBody false).2.1
     ⟨[annDoc, userDoc oidFresh bobBody.name bobBody.email]⟩ rfl (by rfl),
   ((c6_create annDb oidFresh bobBody true).2.2 (Or.inl rfl)).1⟩

/-- Serializing an optional string field into a stored document and decoding
it back is the identity. -/
theorem bval_round_trip (o : Option String) : (o.map BVal.str).bind bvalToStr = o := by
  cases o <;> rfl

/-- C7: round-trip — when create succeeds, fetching by the identifier of the
record create returned (the hex of the generated id, which parses back to it)
yields 200 with a record whose name and email are exactly those of the
creation payload. -/
theorem c7_round_trip (db db2 : Db) (newId : ObjectId) (user nu : User)
    (ops : List StoreOp)
    (hparse : ObjectId.parse_str newId.hex = some newId)
    (hcreate : create_user db newId user false = (Response.okUser nu, db2, ops)) :
    nu.id = some newId ∧
    ∃ u : User, (get_user db2 newId.hex false).1 = Response.okUser u ∧
      u.name = user.name ∧ u.email = user.email := by
  rcases hins : db.insertOne newId user.name user.email with e | db3
  · simp [create_user, hins] at hcreate
  · simp [create_user, hins] at hcreate
    obtain ⟨hnu, hdb, -⟩ := hcreate
    have hfind := findOne_insertOne db db3 newId user.name user.email hins
    refine ⟨by rw [← hnu], docToUser (userDoc newId user.name user.email), ?_, ?_, ?_⟩
    · rw [← hdb]
      simp [get_user, hparse, hfind]
    · simp [docToUser, userDoc, bval_round_trip]
    · simp [docToUser, userDoc, bval_round_trip]

/-- C7 witness: creating "Bob" in the one-document store and fetching it back
by the generated id returns his name and email. -/
theorem c7_round_trip_witness :
    (⟨some oidFresh, bobBody.name, bobBody.email⟩ : User).id = some oidFresh ∧
    ∃ u : User,
      (get_user ⟨[annDoc, userDoc oidFresh bobBody.name bobBody.email]⟩
        oidFresh.hex false).1 = Response.okUser u ∧
      u.name = bobBody.name ∧ u.email = bobBody.email :=
  c7_round_trip annDb ⟨[annDoc, userDoc oidFresh bobBody.name bobBody.email]⟩
    oidFresh bobBody ⟨some oidFresh, bobBody.name, bobBody.email⟩
    [StoreOp.insertOne ⟨some oidFresh, bobBody.name, bobBody.email⟩]
    (by decide) (by rfl)

/-- C8: with a well-formed identifier and an existing record, the delete
handler returns 200 with the pre-delete record exactly when the store removed
one document, 404 when it removed zero (the fetch-delete race), and 500 when
the delete call fails; in a race-free execution on a well-formed store,
deleting the same identifier twice gives 200 then 404. -/
theorem c8_delete (db dbd : Db) (info : String) (uid : ObjectId) (ex : User)
    (hp : ObjectId.parse_str info = some uid)
    (hf : db.findOne uid = some ex) :
    ((delete_user db dbd info false false).1 = Response.okUser ex
      ↔ (dbd.deleteOne uid).2 = 1) ∧
    ((dbd.deleteOne uid).2 = 0 →
      (delete_user db dbd info false false).1 = Response.notFound) ∧
    ((delete_user db dbd info false true).1 = Response.serverError) ∧
    (db.wf →
      (delete_user db db info false false).1 = Response.okUser ex ∧
      (delete_user (delete_user db db info false false).2.1
         (delete_user db db info false false).2.1 info false false).1
        = Response.notFound) := by
  refine ⟨?_, ?_, ?_, ?_⟩
  · by_cases hc : (dbd.deleteOne uid).2 = 1
    · simp [delete_user, hp, hf, hc]
    · simp [delete_user, hp, hf, hc]
  · intro h0
    simp [delete_user, hp, hf, h0]
  · simp [delete_user, hp, hf]
  · intro hwf
    have hd : ∃ d, db.docs.find? (fun x => x.id = uid) = some d := by
      unfold Db.findOne at hf
      rcases hx : db.docs.find? (fun x => x.id = uid) with - | d
      · rw [hx] at hf
        simp at hf
      · exact ⟨d, hx⟩
    obtain ⟨d, hd⟩ := hd
    have hcount : (db.deleteOne uid).2 = 1 := deleteFirst_count db.docs uid d hd
    have hfirst : delete_user db db info false false
        = (Response.okUser ex, (db.deleteOne uid).1,
           [StoreOp.findOne uid, StoreOp.deleteOne uid]) := by
      simp [delete_user, hp, hf, hcount]
    have hnone : (db.deleteOne uid).1.findOne uid = none := by
      unfold Db.findOne Db.deleteOne
      rw [find?_deleteFirst db.docs uid hwf]
      rfl
    refine ⟨by rw [hfirst], ?_⟩
    rw [hfirst]
    simp [delete_user, hp, hnone]

/-- C8 witness: deleting the one stored record succeeds with its body, a
delete-call failure yields 500, the second delete yields 404, and a
concurrent removal between fetch and delete (empty store at delete time)
yields 404. -/
theorem c8_delete_witness :
    ((delete_user annDb annDb s0 false false).1 = Response.okUser annUser
      ↔ (annDb.deleteOne oid0).2 = 1) ∧
    (delete_user annDb annDb s0 false true).1 = Response.serverError ∧
    (delete_user annDb annDb s0 false false).1 = Response.okUser annUser ∧
    (delete_user (delete_user annDb annDb s0 false false).2.1
       (delete_user annDb annDb s0 false false).2.1 s0 false false).1
      = Response.notFound ∧
    (delete_user annDb ⟨[]⟩ s0 false false).1 = Response.notFound :=
  ⟨(c8_delete annDb annDb s0 oid0 annUser (by decide) (by decide)).1,
   (c8_delete annDb annDb s0 oid0 annUser (by decide) (by decide)).2.2.1,
   ((c8_delete annDb annDb s0 oid0 annUser (by decide) (by decide)).2.2.2
      (List.nodup_singleton _)).1,
   ((c8_delete annDb annDb s0 oid0 annUser (by decide) (by decide)).2.2.2
      (List.nodup_singleton _)).2,
   (c8_delete annDb ⟨[]⟩ s0 oid0 annUser (by decide) (by decide)).2.1 (by decide)⟩

/-- C9: success bodies are serialized by `serializeUser` (directly for create,
get-one, update, delete; element-wise for get-all), and in that serialization
each of the three attributes appears as a key exactly when it is present —
an absent attribute is omitted entirely — and no key ever carries a JSON
null. -/
theorem c9_serialization (u : User) (us : List User) :
    responseBody (Response.okUser u) = some (serializeUser u) ∧
    responseBody (Response.okList us) = some (Json.arr (us.map serializeUser)) ∧
    objKeys (serializeUser u)
      = (if u.id.isSome then ["_id"] else []) ++
        (if u.name.isSome then ["name"] else []) ++
        (if u.email.isSome then ["email"] else []) ∧
    hasNullValue (serializeUser u) = false := by
  refine ⟨rfl, rfl, ?_, ?_⟩
  · rcases u with ⟨i, n, e⟩
    cases i <;> cases n <;> cases e <;> simp [serializeUser, objKeys]
  · rcases u with ⟨i, n, e⟩
    cases i <;> cases n <;> cases e <;> simp [serializeUser, hasNullValue, isNull, idJson]

/-- C10: the `$set` document of the update write always sets both fields on
the matched document: the write performed by `update_user_in_db` rewrites the
matched document so that name and email are both present, an absent merged
value being stored as an explicit BSON null (not removed), even though the
outward representation of such a field is again "absent". -/
theorem c10_update_null (db : Db) (uid : ObjectId) (u : User) (d : Doc)
    (hd : db.docs.find? (fun x => x.id = uid) = some d) :
    (update_user_in_db db uid u false).2 = (db.updateOne uid u.name u.email).1 ∧
    (db.updateOne uid u.name u.email).1.docs.find? (fun x => x.id = uid)
      = some (setFields d u.name u.email) ∧
    (setFields d u.name u.email).name = some (bvalOf u.name) ∧
    (setFields d u.name u.email).email = some (bvalOf u.email) ∧
    bvalOf none = BVal.null ∧
    (u.name = none → (docToUser (setFields d u.name u.email)).name = none) ∧
    (u.email = none → (docToUser (setFields d u.name u.email)).email = none) := by
  refine ⟨rfl, ?_, rfl, rfl, rfl, ?_, ?_⟩
  · simp only [Db.updateOne]
    exact updateFirst_find? db.docs uid u.name u.email d hd
  · intro h
    simp [docToUser, setFields, bvalOf, h, bvalToStr]
  · intro h
    simp [docToUser, setFields, bvalOf, h, bvalToStr]

/-- C10 witness: an empty-body update against the stored "Ann" document sets
both fields, leaving an explicit null email in the store which the outward
representation omits. -/
theorem c10_update_null_witness :
    (update_user_in_db annDb oid0 emptyBody false).2
      = (annDb.updateOne oid0 emptyBody.name emptyBody.email).1 ∧
    (annDb.updateOne oid0 emptyBody.name emptyBody.email).1.docs.find?
        (fun x => x.id = oid0)
      = some (setFields annDoc emptyBody.name emptyBody.email) ∧
    (setFields annDoc emptyBody.name emptyBody.email).name
      = some (bvalOf emptyBody.name) ∧
    (setFields annDoc emptyBody.name emptyBody.email).email
      = some (bvalOf emptyBody.email) ∧
    bvalOf none = BVal.null ∧
    (docToUser (setFields annDoc emptyBody.name emptyBody.email)).name = none ∧
    (docToUser (setFields annDoc emptyBody.name emptyBody.email)).email = none :=
  ⟨(c10_update_null annDb oid0 emptyBody annDoc (by decide)).1,
   (c10_update_null annDb oid0 emptyBody annDoc (by decide)).2.1,
   (c10_update_null annDb oid0 emptyBody annDoc (by decide)).2.2.1,
   (c10_update_null annDb oid0 emptyBody annDoc (by decide)).2.2.2.1,
   (c10_update_null annDb oid0 emptyBody annDoc (by decide)).2.2.2.2.1,
   (c10_update_null annDb oid0 emptyBody annDoc (by decide)).2.2.2.2.2.1 rfl,
   (c10_update_null annDb oid0 emptyBody annDoc (by decide)).2.2.2.2.2.2 rfl⟩

end RestApi
